import Mathlib

/-!
# Bluetooth Buzzer System: the shared configuration header

A shallow embedding of `common/config.h`: the pin assignment, the radio pipe
addresses, the timing constants, the team colour table, the protocol message
types and the `BuzzerMessage` wire structure, followed by the properties of
these that the protocol relies on.

The `#define` constants are C `int` literals and are embedded as `Nat`.
Objects declared with the types `uint8_t` and `byte` hold values in `0..255`.
-/

namespace Buzzer

/-! ## Machine types -/

/-- An 8-bit unsigned value, the C type `uint8_t`. -/
abbrev uint8_t : Type := Fin 256

/-- Arduino's `byte`, an alias of `uint8_t`. -/
abbrev byte : Type := uint8_t

/-- Conversion of an integer to `uint8_t` (C conversion to an unsigned type:
reduction modulo `2^8`). -/
def toUint8 (n : Nat) : uint8_t := ⟨n % 256, Nat.mod_lt n (by decide)⟩

/-! ## RF24 configuration (config.h lines 9-21) -/

/-- Hardware SPI clock pin, `SCK=D13` (config.h line 12). -/
def SPI_SCK_PIN : Nat := 13

/-- Hardware SPI data-out pin, `MOSI=D11` (config.h line 12). -/
def SPI_MOSI_PIN : Nat := 11

/-- Hardware SPI data-in pin, `MISO=D12` (config.h line 12). -/
def SPI_MISO_PIN : Nat := 12

/-- Chip Enable. -/
def RF_CE_PIN : Nat := 8

/-- Chip Select. -/
def RF_CSN_PIN : Nat := 10

/-- RF channel (0-125). -/
def RF_CHANNEL : Nat := 100

/-- Initialisation of a `byte` array of declared size `n` from a string
literal (`const byte X[n] = "..."`): the characters of the literal, then zero
bytes (the terminator and any remaining elements) up to `n` elements. -/
def byteArrayOfLiteral (n : Nat) (s : List Char) : List byte :=
  (s.map (fun (c : Char) => toUint8 c.toNat) ++ List.replicate (n - s.length) 0).take n

/-- Referee listening address: `const byte REFEREE_ADDR[6] = "REF01";`. -/
def REFEREE_ADDR : List byte := byteArrayOfLiteral 6 ['R', 'E', 'F', '0', '1']

/-- Broadcast to all players: `const byte BROADCAST_ADDR[6] = "BCAST";`. -/
def BROADCAST_ADDR : List byte := byteArrayOfLiteral 6 ['B', 'C', 'A', 'S', 'T']

/-- The characters of a byte array read as a C string: the bytes before the
first zero byte. -/
def cStringBytes (a : List byte) : List byte := a.takeWhile (fun b => b != 0)

/-! ## Player and referee pins (config.h lines 23-37) -/

def PLAYER_BUTTON_PIN : Nat := 9
def PLAYER_BUZZER_PIN : Nat := 4
def PLAYER_LED_PIN : Nat := 7

def REFEREE_BUTTON_PIN : Nat := 7
def REFEREE_BUZZER_PIN : Nat := 4

/-- WS2812 data pin (moved from D11/D12 due to SPI conflict). -/
def REFEREE_RGB_PIN : Nat := 3

/-- Number of WS2812 LEDs. -/
def REFEREE_NUM_LEDS : Nat := 1

/-- Every pin a player unit uses: its own three pins, the two radio control
pins and the three hardware SPI pins. -/
def playerPins : List Nat :=
  [PLAYER_BUTTON_PIN, PLAYER_BUZZER_PIN, PLAYER_LED_PIN, RF_CE_PIN, RF_CSN_PIN,
   SPI_SCK_PIN, SPI_MOSI_PIN, SPI_MISO_PIN]

/-- Every pin the referee unit uses: its own three pins, the two radio control
pins and the three hardware SPI pins. -/
def refereePins : List Nat :=
  [REFEREE_BUTTON_PIN, REFEREE_BUZZER_PIN, REFEREE_RGB_PIN, RF_CE_PIN, RF_CSN_PIN,
   SPI_SCK_PIN, SPI_MOSI_PIN, SPI_MISO_PIN]

/-! ## Timing configuration, in milliseconds (config.h lines 39-46) -/

/-- 3 seconds lockout after winner. -/
def LOCKOUT_DURATION : Nat := 3000

/-- Button debounce time. -/
def DEBOUNCE_DELAY : Nat := 50

/-- Buzzer beep duration. -/
def BUZZER_DURATION : Nat := 200

/-- Delay between retries. -/
def RF_RETRY_DELAY : Nat := 5

/-- Number of retries. -/
def RF_RETRY_COUNT : Nat := 15

/-! ## Team and player definitions (config.h lines 48-66) -/

/-- Maximum supported players. -/
def MAX_PLAYERS : Nat := 8

/-- Team colours (RGB values for WS2812), one row per player:
`const uint8_t TEAM_COLORS[][3]`; the number of rows is the number of
initialisers. -/
def TEAM_COLORS : List (List uint8_t) :=
  [ [0,   255, 0],      -- Player 0: Green
    [255, 0,   0],      -- Player 1: Red
    [0,   0,   255],    -- Player 2: Blue
    [255, 255, 0],      -- Player 3: Yellow
    [255, 0,   255],    -- Player 4: Magenta
    [0,   255, 255],    -- Player 5: Cyan
    [255, 128, 0],      -- Player 6: Orange
    [255, 255, 255] ]   -- Player 7: White

/-- The colour lookup `TEAM_COLORS[playerId]`: `none` where the index is past
the end of the array (an out-of-bounds read in C). -/
def teamColor (playerId : Nat) : Option (List uint8_t) := TEAM_COLORS.get? playerId

/-! ## Protocol message types (config.h lines 68-74) -/

/-- Referee broadcast: reset all. -/
def MSG_RESET : Nat := 0x01

/-- Player -> Referee: button pressed. -/
def MSG_BUZZ : Nat := 0x02

/-- Referee -> Player: you won. -/
def MSG_ACK_WINNER : Nat := 0x03

/-- Referee broadcast: someone else won. -/
def MSG_LOCKOUT : Nat := 0x04

/-- The message types the header defines, in the order of their definition. -/
def messageTypes : List Nat := [MSG_RESET, MSG_BUZZ, MSG_ACK_WINNER, MSG_LOCKOUT]

/-- A byte is a recognised message type when it equals one of the `MSG_*`
constants. -/
def isKnownType (b : Nat) : Bool :=
  b == MSG_RESET || b == MSG_BUZZ || b == MSG_ACK_WINNER || b == MSG_LOCKOUT

/-! ## Message structure (config.h lines 76-83) -/

/-- The wire message, `struct BuzzerMessage`. -/
structure BuzzerMessage where
  /-- Message type (MSG_*). -/
  type : uint8_t
  /-- Player ID (0-7). -/
  playerId : uint8_t
  /-- Optional data. -/
  data : uint8_t
deriving DecidableEq, Repr

/-- Size in bytes of each member of `struct BuzzerMessage`, in declaration
order (`sizeof(uint8_t)` is 1). -/
def BuzzerMessage.memberSizes : List (String × Nat) :=
  [("type", 1), ("playerId", 1), ("data", 1)]

/-- Offset of each member and the total size of a structure whose members all
have alignment 1, so that no padding is inserted: every member starts where the
previous one ends. -/
def layoutOffsets : Nat → List (String × Nat) → List (String × Nat) × Nat
  | off, [] => ([], off)
  | off, (name, size) :: rest =>
    let r := layoutOffsets (off + size) rest
    ((name, off) :: r.1, r.2)

/-- The value of `sizeof(BuzzerMessage)`. -/
def sizeof_BuzzerMessage : Nat := (layoutOffsets 0 BuzzerMessage.memberSizes).2

/-- The frame put on the air for a message: the object representation of the
structure, one byte per member in declaration order. -/
def encode (m : BuzzerMessage) : List uint8_t := [m.type, m.playerId, m.data]

/-- Reading a received frame back into the three members of the structure;
`none` when the frame does not have the size of the structure. -/
def unpack : List uint8_t → Option BuzzerMessage
  | [t, p, d] => some ⟨t, p, d⟩
  | _ => none

/-! ## Protocol operations that use the header

The header only declares the constants and the message structure; the codec,
the reliable send and the referee's deadline are described by the system
specification and are embedded here from that description. -/

/-- Modelled from the spec: the codec's `DecodeError`, which `config.h` does not
contain, with one value for each of the two ways decoding a frame can fail. -/
inductive DecodeError where
  /-- The byte sequence does not have the length of a message. -/
  | wrongLength
  /-- The `type` byte is not one of the four known values. -/
  | unknownType
deriving DecidableEq, Repr

/-- Modelled from the spec: the codec's `decode`, which `config.h` does not
contain. Decoding fails with `DecodeError` if the byte sequence length is wrong
or `type` is not one of the four known values; `playerId` values outside the
valid range are passed through. -/
def decode (bytes : List uint8_t) : Except DecodeError BuzzerMessage :=
  match unpack bytes with
  | none => .error .wrongLength
  | some m => if isKnownType m.type.val then .ok m else .error .unknownType

/-- Modelled from the spec: what a node does on the radio link during a
reliable send, a transmission attempt or a pause; the radio link is not part of
`config.h`. -/
inductive LinkAction where
  /-- One transmission attempt, a call of `send(address, message)`. -/
  | send (address : List byte) (message : BuzzerMessage)
  /-- A pause of the given number of milliseconds. -/
  | delay (ms : Nat)
deriving DecidableEq, Repr

/-- Whether an action is a transmission attempt. -/
def LinkAction.isSend : LinkAction → Bool
  | .send _ _ => true
  | .delay _ => false

/-- The time an action stalls the node's loop, in milliseconds. -/
def LinkAction.stallMs : LinkAction → Nat
  | .send _ _ => 0
  | .delay ms => ms

/-- Number of transmission attempts in a sequence of link actions. -/
def attempts (actions : List LinkAction) : Nat := (actions.filter LinkAction.isSend).length

/-- Total delay in a sequence of link actions, in milliseconds. -/
def stall (actions : List LinkAction) : Nat := (actions.map LinkAction.stallMs).sum

/-- Modelled from the spec: the loop of `sendReliable`, which `config.h` does
not contain. `link k` is the outcome of transmission attempt number `k` (the
link-layer acknowledgement); `k` is the attempt counter and `remaining` the
attempts still allowed. The loop stops at the first success and puts
`retryDelay` between one attempt and the next. -/
def sendReliableFrom (link : Nat → Bool) (address : List byte) (message : BuzzerMessage)
    (retryDelay : Nat) : Nat → Nat → Bool × List LinkAction
  | _, 0 => (false, [])
  | k, remaining + 1 =>
    if link k then (true, [.send address message])
    else if remaining = 0 then (false, [.send address message])
    else
      let r := sendReliableFrom link address message retryDelay (k + 1) remaining
      (r.1, .send address message :: .delay retryDelay :: r.2)

/-- Modelled from the spec: `sendReliable(address, message, retryCount,
retryDelay) -> bool`, which `config.h` does not contain. It repeats `send` up
to `retryCount` times with `retryDelay` between attempts, stopping at first
success, and returns overall success; the second component is the sequence of
link actions performed. -/
def sendReliable (link : Nat → Bool) (address : List byte) (message : BuzzerMessage)
    (retryCount retryDelay : Nat) : Bool × List LinkAction :=
  sendReliableFrom link address message retryDelay 0 retryCount

/-- Modelled from the spec: the deadline the referee sets when it accepts a
winner at time `now`, `lockout deadline = now + LOCKOUT_DURATION`; the referee
code is not part of `config.h`. Time is the monotonic millisecond clock. -/
def lockoutDeadline (now : Nat) : Nat := now + LOCKOUT_DURATION

/-! ## Lemmas on the reliable send -/

theorem sendReliableFrom_attempts_le (link : Nat → Bool) (address : List byte)
    (message : BuzzerMessage) (retryDelay : Nat) (remaining : Nat) :
    ∀ k, attempts (sendReliableFrom link address message retryDelay k remaining).2 ≤ remaining := by
  induction remaining with
  | zero => intro k; simp [sendReliableFrom, attempts]
  | succ n ih =>
    intro k
    unfold sendReliableFrom
    by_cases hk : link k = true
    · simp [hk, attempts, LinkAction.isSend]
    · by_cases hn : n = 0
      · simp [hk, hn, attempts, LinkAction.isSend]
      · have h := ih (k + 1)
        simp only [attempts] at h
        simp [hk, hn, attempts, LinkAction.isSend]
        exact h

theorem sendReliableFrom_stall_le (link : Nat → Bool) (address : List byte)
    (message : BuzzerMessage) (retryDelay : Nat) (remaining : Nat) :
    ∀ k, stall (sendReliableFrom link address message retryDelay k remaining).2 + retryDelay
      ≤ remaining * retryDelay + retryDelay := by
  induction remaining with
  | zero => intro k; simp [sendReliableFrom, stall]
  | succ n ih =>
    intro k
    unfold sendReliableFrom
    by_cases hk : link k = true
    · simp [hk, stall, LinkAction.stallMs]
    · by_cases hn : n = 0
      · simp [hk, hn, stall, LinkAction.stallMs]
      · have h := ih (k + 1)
        simp only [stall] at h
        simp [hk, hn, stall, LinkAction.stallMs]
        rw [Nat.succ_mul]
        omega

theorem sendReliableFrom_all_fail (link : Nat → Bool) (address : List byte)
    (message : BuzzerMessage) (retryDelay : Nat) (hfail : ∀ k, link k = false)
    (remaining : Nat) :
    ∀ k, sendReliableFrom link address message retryDelay k remaining =
      (false, List.intersperse (LinkAction.delay retryDelay)
        (List.replicate remaining (LinkAction.send address message))) := by
  induction remaining with
  | zero => intro k; simp [sendReliableFrom]
  | succ n ih =>
    intro k
    unfold sendReliableFrom
    by_cases hn : n = 0
    · subst hn; simp [hfail k]
    · obtain ⟨j, rfl⟩ := Nat.exists_eq_succ_of_ne_zero hn
      simp [hfail k, ih (k + 1), List.replicate_succ]

theorem sendReliableFrom_all_fail_attempts (link : Nat → Bool) (address : List byte)
    (message : BuzzerMessage) (retryDelay : Nat) (hfail : ∀ k, link k = false)
    (remaining : Nat) :
    ∀ k, attempts (sendReliableFrom link address message retryDelay k remaining).2 = remaining := by
  induction remaining with
  | zero => intro k; simp [sendReliableFrom, attempts]
  | succ n ih =>
    intro k
    unfold sendReliableFrom
    by_cases hn : n = 0
    · simp [hfail k, hn, attempts, LinkAction.isSend]
    · have h := ih (k + 1)
      simp only [attempts] at h
      simp [hfail k, hn, attempts, LinkAction.isSend]
      exact h

theorem sendReliable_attempts_le (link : Nat → Bool) (address : List byte)
    (message : BuzzerMessage) (retryCount retryDelay : Nat) :
    attempts (sendReliable link address message retryCount retryDelay).2 ≤ retryCount :=
  sendReliableFrom_attempts_le link address message retryDelay retryCount 0

theorem sendReliable_stall_le (link : Nat → Bool) (address : List byte)
    (message : BuzzerMessage) (retryCount retryDelay : Nat) :
    stall (sendReliable link address message retryCount retryDelay).2
      ≤ retryCount * retryDelay := by
  have h := sendReliableFrom_stall_le link address message retryDelay retryCount 0
  unfold sendReliable
  omega

/-! ## Lemmas on the colour table -/

theorem teamColor_isSome_iff (p : Nat) : (teamColor p).isSome = true ↔ p < MAX_PLAYERS := by
  unfold teamColor MAX_PLAYERS TEAM_COLORS
  rcases p with _ | _ | _ | _ | _ | _ | _ | _ | p <;> simp

theorem teamColor_injective (p q : Nat) (row : List uint8_t)
    (hp : teamColor p = some row) (hq : teamColor q = some row) : p = q := by
  unfold teamColor TEAM_COLORS at hp hq
  rcases p with _ | _ | _ | _ | _ | _ | _ | _ | p <;>
    rcases q with _ | _ | _ | _ | _ | _ | _ | _ | q <;>
    simp_all <;> (subst hp; revert hq; decide)

/-! ## The message codec -/

/-- C1: round-trip law over the `BuzzerMessage` layout. For every message `m`
(every `uint8_t` value of `type`, `playerId` and `data`), writing the members
in declaration order and reading those bytes back into the three members
yields exactly `m`; and for every `m` whose `type` is one of the four known
message types the validating `decode` accepts the encoding and returns `m`. -/
theorem decode_encode_roundtrip (m : BuzzerMessage) :
    unpack (encode m) = some m ∧
    (isKnownType m.type.val = true → decode (encode m) = Except.ok m) := by
  refine ⟨rfl, ?_⟩
  intro h
  simp [decode, encode, unpack, h]

theorem decode_encode_roundtrip_witness :
    isKnownType (BuzzerMessage.mk 2 5 0).type.val = true ∧
    unpack (encode (BuzzerMessage.mk 2 5 0)) = some (BuzzerMessage.mk 2 5 0) ∧
    decode (encode (BuzzerMessage.mk 2 5 0)) = Except.ok (BuzzerMessage.mk 2 5 0) :=
  ⟨by decide, (decode_encode_roundtrip (BuzzerMessage.mk 2 5 0)).1,
    (decode_encode_roundtrip (BuzzerMessage.mk 2 5 0)).2 (by decide)⟩

theorem decode_unknown_type (t p d : uint8_t) (h : isKnownType t.val = false) :
    decode (encode (BuzzerMessage.mk t p d)) = Except.error DecodeError.unknownType := by
  simp [decode, encode, unpack, h]

theorem decode_wrong_length (bytes : List uint8_t) (h : bytes.length ≠ 3) :
    decode bytes = Except.error DecodeError.wrongLength := by
  match bytes, h with
  | [], _ => rfl
  | [_], _ => rfl
  | [_, _], _ => rfl
  | [_, _, _], h => exact absurd rfl h
  | _ :: _ :: _ :: _ :: _, _ => rfl

/-- C2: the wire form of every `BuzzerMessage` is exactly 3 bytes: the `type`
byte, then the `playerId` byte, then the `data` byte, whatever the member
values are; the structure has exactly these three one-byte members, at offsets
0, 1 and 2, and its size is 3. -/
theorem encode_fixed_size (m : BuzzerMessage) :
    (encode m).length = 3 ∧
    (encode m).get? 0 = some m.type ∧
    (encode m).get? 1 = some m.playerId ∧
    (encode m).get? 2 = some m.data ∧
    (encode m).length = sizeof_BuzzerMessage ∧
    layoutOffsets 0 BuzzerMessage.memberSizes =
      ([("type", 0), ("playerId", 1), ("data", 2)], 3) ∧
    BuzzerMessage.memberSizes.map Prod.snd = [1, 1, 1] := by
  exact ⟨rfl, rfl, rfl, rfl, rfl, by decide, by decide⟩

/-! ## Message types and player identifiers -/

/-- C3: there are exactly four message types, pairwise distinct, with the
values 0x01, 0x02, 0x03, 0x04; a value `b` (in particular every byte) equals
one of the four constants if and only if `0x01 <= b <= 0x04`, so 0x00 and
0x05..0xFF are unrecognised. -/
theorem message_types_exact :
    messageTypes.length = 4 ∧
    List.Pairwise (fun a b => a ≠ b) messageTypes ∧
    MSG_RESET = 0x01 ∧ MSG_BUZZ = 0x02 ∧ MSG_ACK_WINNER = 0x03 ∧ MSG_LOCKOUT = 0x04 ∧
    (∀ b : Nat, (b = MSG_RESET ∨ b = MSG_BUZZ ∨ b = MSG_ACK_WINNER ∨ b = MSG_LOCKOUT) ↔
      (0x01 ≤ b ∧ b ≤ 0x04)) ∧
    (∀ b : uint8_t, isKnownType b.val = true ↔ (0x01 ≤ b.val ∧ b.val ≤ 0x04)) ∧
    (∀ b : uint8_t, isKnownType b.val = false ↔ (b.val = 0x00 ∨ 0x05 ≤ b.val)) := by
  refine ⟨rfl, by decide, rfl, rfl, rfl, rfl, ?_, ?_, ?_⟩
  · intro b
    simp only [MSG_RESET, MSG_BUZZ, MSG_ACK_WINNER, MSG_LOCKOUT]
    omega
  · intro b
    simp only [isKnownType, MSG_RESET, MSG_BUZZ, MSG_ACK_WINNER, MSG_LOCKOUT,
      Bool.or_eq_true, beq_iff_eq]
    omega
  · intro b
    rw [← Bool.not_eq_true]
    simp only [isKnownType, MSG_RESET, MSG_BUZZ, MSG_ACK_WINNER, MSG_LOCKOUT,
      Bool.or_eq_true, beq_iff_eq]
    omega

/-- C4: `MAX_PLAYERS` is 8, the valid `playerId` range `[0, MAX_PLAYERS-1]` is
exactly 0..7, `MAX_PLAYERS - 1 <= 255`, and every valid `playerId` stored in the
one-byte `playerId` member of a `BuzzerMessage` reads back unchanged. -/
theorem max_players_fits_byte :
    MAX_PLAYERS = 8 ∧
    List.range MAX_PLAYERS = [0, 1, 2, 3, 4, 5, 6, 7] ∧
    (∀ p : Nat, p ≤ MAX_PLAYERS - 1 ↔ p ∈ [0, 1, 2, 3, 4, 5, 6, 7]) ∧
    MAX_PLAYERS - 1 ≤ 255 ∧
    (∀ (p : Nat) (t d : uint8_t), p ≤ MAX_PLAYERS - 1 →
      (BuzzerMessage.mk t (toUint8 p) d).playerId.val = p) := by
  refine ⟨rfl, by decide, ?_, by decide, ?_⟩
  · intro p
    simp only [MAX_PLAYERS, List.mem_cons, List.mem_singleton, List.not_mem_nil, or_false]
    omega
  · intro p t d hp
    simp only [MAX_PLAYERS] at hp
    simp only [toUint8]
    omega

theorem max_players_fits_byte_witness :
    7 ≤ MAX_PLAYERS - 1 ∧ (BuzzerMessage.mk 2 (toUint8 7) 0).playerId.val = 7 :=
  ⟨by decide, max_players_fits_byte.2.2.2.2 7 2 0 (by decide)⟩

/-! ## Reliable send and timing -/

/-- C5: with the configured retry budget (`RF_RETRY_COUNT = 15`,
`RF_RETRY_DELAY = 5` ms) a reliable send over a link that always fails returns
failure after exactly 15 send attempts with a 5 ms delay between consecutive
attempts; no link makes it issue more than 15 attempts; the time it stalls is
at most `RF_RETRY_COUNT * RF_RETRY_DELAY`, which is exactly 75 ms, below
100 ms. -/
theorem sendReliable_always_failing (link : Nat → Bool) (address : List byte)
    (message : BuzzerMessage) (hfail : ∀ k, link k = false) :
    RF_RETRY_COUNT = 15 ∧ RF_RETRY_DELAY = 5 ∧
    (sendReliable link address message RF_RETRY_COUNT RF_RETRY_DELAY).1 = false ∧
    attempts (sendReliable link address message RF_RETRY_COUNT RF_RETRY_DELAY).2 = 15 ∧
    (sendReliable link address message RF_RETRY_COUNT RF_RETRY_DELAY).2 =
      List.intersperse (LinkAction.delay 5) (List.replicate 15 (LinkAction.send address message)) ∧
    (∀ other : Nat → Bool,
      attempts (sendReliable other address message RF_RETRY_COUNT RF_RETRY_DELAY).2 ≤ 15) ∧
    stall (sendReliable link address message RF_RETRY_COUNT RF_RETRY_DELAY).2
      ≤ RF_RETRY_COUNT * RF_RETRY_DELAY ∧
    RF_RETRY_COUNT * RF_RETRY_DELAY = 75 ∧
    RF_RETRY_COUNT * RF_RETRY_DELAY < 100 := by
  have hall := sendReliableFrom_all_fail link address message RF_RETRY_DELAY hfail
    RF_RETRY_COUNT 0
  refine ⟨rfl, rfl, ?_, ?_, ?_, ?_, ?_, by decide, by decide⟩
  · unfold sendReliable; rw [hall]
  · exact sendReliableFrom_all_fail_attempts link address message RF_RETRY_DELAY hfail
      RF_RETRY_COUNT 0
  · unfold sendReliable; rw [hall]; rfl
  · intro other
    exact sendReliable_attempts_le other address message RF_RETRY_COUNT RF_RETRY_DELAY
  · exact sendReliable_stall_le link address message RF_RETRY_COUNT RF_RETRY_DELAY

theorem sendReliable_always_failing_witness :
    (∀ k : Nat, (fun _ : Nat => false) k = false) ∧
    (sendReliable (fun _ => false) REFEREE_ADDR (BuzzerMessage.mk 2 5 0)
      RF_RETRY_COUNT RF_RETRY_DELAY).1 = false ∧
    attempts (sendReliable (fun _ => false) REFEREE_ADDR (BuzzerMessage.mk 2 5 0)
      RF_RETRY_COUNT RF_RETRY_DELAY).2 = 15 :=
  ⟨fun _ => rfl,
    (sendReliable_always_failing (fun _ => false) REFEREE_ADDR (BuzzerMessage.mk 2 5 0)
      (fun _ => rfl)).2.2.1,
    (sendReliable_always_failing (fun _ => false) REFEREE_ADDR (BuzzerMessage.mk 2 5 0)
      (fun _ => rfl)).2.2.2.1⟩

/-- C6: `LOCKOUT_DURATION` is 3000 ms and `DEBOUNCE_DELAY` is 50 ms; a lockout
deadline computed as `now + LOCKOUT_DURATION` lies exactly 3000 ms after `now`,
for every value of `now`. The same holds when the millisecond counter is a
32-bit unsigned value that wraps around: the wrapped deadline is reached
exactly 3000 ticks after `now`. -/
theorem lockout_deadline_exact :
    LOCKOUT_DURATION = 3000 ∧ DEBOUNCE_DELAY = 50 ∧
    (∀ now : Nat, lockoutDeadline now = now + 3000 ∧ lockoutDeadline now - now = 3000) ∧
    (∀ now : Nat, now < 4294967296 →
      (lockoutDeadline now % 4294967296 + 4294967296 - now) % 4294967296 = 3000) := by
  refine ⟨rfl, rfl, ?_, ?_⟩
  · intro now
    refine ⟨rfl, ?_⟩
    show now + 3000 - now = 3000
    omega
  · intro now hnow
    show ((now + 3000) % 4294967296 + 4294967296 - now) % 4294967296 = 3000
    omega

theorem lockout_deadline_exact_witness :
    4294967295 < 4294967296 ∧
    lockoutDeadline 4294967295 - 4294967295 = 3000 ∧
    lockoutDeadline 4294967295 % 4294967296 = 2999 ∧
    (lockoutDeadline 4294967295 % 4294967296 + 4294967296 - 4294967295) % 4294967296 = 3000 :=
  ⟨by decide, (lockout_deadline_exact.2.2.1 4294967295).2, by decide,
    lockout_deadline_exact.2.2.2 4294967295 (by decide)⟩

/-! ## Radio pipe addresses -/

/-- C7, as written, fails: `REFEREE_ADDR` and `BROADCAST_ADDR` are declared
with 6 elements, so neither array is 5 bytes long. -/
theorem addr_arrays_not_five_bytes :
    REFEREE_ADDR.length ≠ 5 ∧ BROADCAST_ADDR.length ≠ 5 := by
  decide

/-- C7, amended: `REFEREE_ADDR` and `BROADCAST_ADDR` are build-time constant
arrays of 6 bytes each: the 5 address bytes `REF01` and `BCAST` followed by
one zero terminator byte; the address proper, the bytes before the terminator,
which are also the first 5 bytes, is exactly 5 bytes long. -/
theorem addr_arrays_layout :
    REFEREE_ADDR = [82, 69, 70, 48, 49, 0] ∧
    BROADCAST_ADDR = [66, 67, 65, 83, 84, 0] ∧
    REFEREE_ADDR.length = 6 ∧ BROADCAST_ADDR.length = 6 ∧
    REFEREE_ADDR = cStringBytes REFEREE_ADDR ++ [0] ∧
    BROADCAST_ADDR = cStringBytes BROADCAST_ADDR ++ [0] ∧
    (cStringBytes REFEREE_ADDR).length = 5 ∧
    (cStringBytes BROADCAST_ADDR).length = 5 ∧
    cStringBytes REFEREE_ADDR = REFEREE_ADDR.take 5 ∧
    cStringBytes BROADCAST_ADDR = BROADCAST_ADDR.take 5 := by
  decide

/-- C10: the referee address and the broadcast address differ as 5-byte
addresses, already in their first byte (`R` against `B`), so no destination
address is both the referee address and the broadcast address. -/
theorem referee_broadcast_addr_distinct :
    REFEREE_ADDR.take 5 ≠ BROADCAST_ADDR.take 5 ∧
    (REFEREE_ADDR.take 5).length = 5 ∧ (BROADCAST_ADDR.take 5).length = 5 ∧
    REFEREE_ADDR.head? = some (toUint8 'R'.toNat) ∧
    BROADCAST_ADDR.head? = some (toUint8 'B'.toNat) ∧
    REFEREE_ADDR.head? ≠ BROADCAST_ADDR.head? ∧
    (∀ dest : List byte, ¬ (dest = REFEREE_ADDR.take 5 ∧ dest = BROADCAST_ADDR.take 5)) := by
  refine ⟨by decide, by decide, by decide, by decide, by decide, by decide, ?_⟩
  rintro dest ⟨h1, h2⟩
  exact absurd (h1.symm.trans h2) (by decide)

/-! ## Pin assignment and the colour table -/

/-- C8: on each device no pin has two roles. The player's button, buzzer and
LED pins, the radio CE and CSN pins and the SPI pins 13 (SCK), 11 (MOSI),
12 (MISO) are pairwise distinct; so are the referee's button, buzzer and RGB
pins together with the same radio and SPI pins; in particular
`REFEREE_RGB_PIN` is neither 11 nor 12. -/
theorem pins_pairwise_distinct :
    playerPins = [9, 4, 7, 8, 10, 13, 11, 12] ∧
    refereePins = [7, 4, 3, 8, 10, 13, 11, 12] ∧
    List.Pairwise (fun a b => a ≠ b) playerPins ∧
    List.Pairwise (fun a b => a ≠ b) refereePins ∧
    REFEREE_RGB_PIN ≠ 11 ∧ REFEREE_RGB_PIN ≠ 12 := by
  decide

/-- C9: `TEAM_COLORS` has exactly `MAX_PLAYERS` rows of 3 components each; the
lookup `TEAM_COLORS[playerId]` is defined for every `playerId` in
`[0, MAX_PLAYERS-1]` and undefined for every `playerId >= MAX_PLAYERS` that
fits in a byte; the rows are pairwise distinct, so two different valid players
never share a colour. -/
theorem team_colors_table :
    TEAM_COLORS.length = MAX_PLAYERS ∧
    TEAM_COLORS.map List.length = List.replicate MAX_PLAYERS 3 ∧
    (∀ p : Nat, p < MAX_PLAYERS → (teamColor p).isSome = true) ∧
    (∀ p : Nat, MAX_PLAYERS ≤ p → p ≤ 255 → teamColor p = none) ∧
    List.Pairwise (fun a b => a ≠ b) TEAM_COLORS ∧
    (∀ p q : Nat, p < MAX_PLAYERS → q < MAX_PLAYERS → p ≠ q → teamColor p ≠ teamColor q) := by
  refine ⟨rfl, by decide, ?_, ?_, by decide, ?_⟩
  · intro p hp
    exact (teamColor_isSome_iff p).2 hp
  · intro p hp _
    cases h : teamColor p with
    | none => rfl
    | some row =>
      have hs : (teamColor p).isSome = true := by rw [h]; rfl
      exact absurd ((teamColor_isSome_iff p).1 hs) (Nat.not_lt.2 hp)
  · intro p q hp _ hpq heq
    cases h : teamColor p with
    | none =>
      have hs := (teamColor_isSome_iff p).2 hp
      rw [h] at hs
      exact absurd hs (by decide)
    | some row => exact hpq (teamColor_injective p q row h (heq ▸ h))

theorem team_colors_table_witness :
    (2 < MAX_PLAYERS ∧ 5 < MAX_PLAYERS ∧ 2 ≠ 5 ∧ MAX_PLAYERS ≤ 8 ∧ 8 ≤ 255) ∧
    (teamColor 2).isSome = true ∧ teamColor 8 = none ∧ teamColor 2 ≠ teamColor 5 :=
  ⟨by decide, team_colors_table.2.2.1 2 (by decide),
    team_colors_table.2.2.2.1 8 (by decide) (by decide),
    team_colors_table.2.2.2.2.2 2 5 (by decide) (by decide) (by decide)⟩

end Buzzer
